import Mathlib

/-!
# Verification of `ChromaDBStore` (ragbits document-search vector store)

Shallow embedding of
`packages/ragbits-document-search/src/ragbits/document_search/vector_store/chromadb_store.py`.

Conventions of the embedding:

* Python exceptions are modelled with `Except PyErr`; a Python expression that
  can raise (list indexing) returns in the `Except` monad.
* Distances and embedding coordinates are modelled as rationals (`ℚ`); only
  order comparisons on them occur in the code under verification.
* Metadata values are caller-defined and opaque to the store, so every
  definition is polymorphic in the metadata type `α`.
* The ChromaDB backend and the `Embeddings` provider are external
  collaborators: their *responses* are inputs of the embedded operations, and
  the *calls* the store issues to them are recorded in an ordered trace
  (`ExternalCall`).
-/

namespace ChromaSpec

/-- Python exceptions that the embedded code can raise:
`ImportError` from `__init__`, `IndexError` from `[0]` indexing of empty
result lists. -/
inductive PyErr where
  | importError
  | indexError
deriving DecidableEq, Repr

/-- The `Literal["l2", "ip", "cosine"]` type of the `distance_method`
constructor argument. -/
inductive DistanceMethod where
  | l2
  | ip
  | cosine
deriving DecidableEq, Repr

/-- Modelled from the spec: `VectorDBEntry` is imported from
`ragbits.document_search.vector_store.in_memory`, which is not under `src/`.
Per the spec's data model it is a stored unit with a caller-supplied `key`,
a `vector` payload (raw text in this backend mode: `_store` calls
`.encode("utf-8")` on it) and free-form caller `metadata`. -/
structure VectorDBEntry (α : Type) where
  key : String
  vector : String
  metadata : α
deriving DecidableEq, Repr

/-- The nested dict `{"key": entry.key, "metadata": entry.metadata}` that
`store` writes as the backend row's metadata. -/
structure RowMeta (α : Type) where
  key : String
  metadata : α
deriving DecidableEq, Repr

/-- Modelled from the spec: the column-first result of the backend's
`collection.query` call (an external collaborator, not under `src/`).
Each field is a list with one inner list per query; the inner lists hold the
returned rows, nearest first. An empty result for a single query is
`[[]]` in each column. -/
structure QueryResult (α : Type) where
  documents : List (List String)
  metadatas : List (List (RowMeta α))
  distances : List (List ℚ)
deriving DecidableEq, Repr

/-- Python `xss[0][0]` on a list of lists, in `Option`: `some` the first
element of the first inner list, `none` when an `IndexError` would be
raised. -/
def idx00 {β : Type} (xss : List (List β)) : Option β :=
  xss.head?.bind List.head?

/-- Embedding of `ChromaDBStore._return_best_match`.  Mirrors the Python
short-circuit: when `max_distance is None` the distances column is never
touched and `retrieved["documents"][0][0]` is returned; otherwise
`retrieved["distances"][0][0]` is read first and compared with the
threshold. -/
def returnBestMatch {α : Type} (maxDistance : Option ℚ) (retrieved : QueryResult α) :
    Except PyErr (Option String) :=
  match maxDistance with
  | none =>
      match idx00 retrieved.documents with
      | some doc => .ok (some doc)
      | none => .error .indexError
  | some md =>
      match idx00 retrieved.distances with
      | none => .error .indexError
      | some d =>
          if d ≤ md then
            match idx00 retrieved.documents with
            | some doc => .ok (some doc)
            | none => .error .indexError
          else .ok none

/-- The loop body of `ChromaDBStore.retrieve`: build one `VectorDBEntry` from
one element `(doc, meta)` of `zip(query_result.get("documents"),
query_result.get("metadatas"))`.  `meta[0]` and `doc[0]` raise `IndexError`
on empty lists. -/
def rowToEntry {α : Type} (doc : List String) (meta : List (RowMeta α)) :
    Except PyErr (VectorDBEntry α) :=
  match meta.head?, doc.head? with
  | some m, some d => .ok ⟨m.key, d, m.metadata⟩
  | _, _ => .error .indexError

/-- The `entries.append(entry)` loop of `ChromaDBStore.retrieve`: build one
entry per zipped pair; a raised `IndexError` aborts the whole loop. -/
def buildEntries {α : Type} :
    List (List String × List (RowMeta α)) → Except PyErr (List (VectorDBEntry α))
  | [] => .ok []
  | (doc, meta) :: rest =>
      match rowToEntry doc meta with
      | .error err => .error err
      | .ok entry =>
          match buildEntries rest with
          | .error err => .error err
          | .ok entries => .ok (entry :: entries)

/-- The entry-building part of `ChromaDBStore.retrieve`: iterate over the
zip of the documents and metadatas columns (the per-query axis of the
column-first result) and collect entries. -/
def retrieveEntries {α : Type} (queryResult : QueryResult α) :
    Except PyErr (List (VectorDBEntry α)) :=
  buildEntries (queryResult.documents.zip queryResult.metadatas)

/-! ## `sha256(item["text"].encode("utf-8")).hexdigest()`

`_store` derives each storage ID with Python's `hashlib.sha256` over the
UTF-8 encoding of the payload text.  Both are modelled concretely: UTF-8 by
the standard codepoint encoding, SHA-256 by FIPS 180-4 over byte lists, with
32-bit words as `Nat` reduced mod `2^32`. -/

/-- UTF-8 encoding of one Unicode codepoint (Python `str.encode("utf-8")`,
per character). -/
def utf8EncodeChar (c : Char) : List Nat :=
  let n := c.toNat
  if n < 128 then [n]
  else if n < 2048 then [192 + n / 64, 128 + n % 64]
  else if n < 65536 then [224 + n / 4096, 128 + (n / 64) % 64, 128 + n % 64]
  else [240 + n / 262144, 128 + (n / 4096) % 64, 128 + (n / 64) % 64, 128 + n % 64]

/-- Python `s.encode("utf-8")` as a list of byte values. -/
def utf8Encode (s : String) : List Nat :=
  (s.data.map utf8EncodeChar).flatten

/-- Truncation to a 32-bit word. -/
def w32 (x : Nat) : Nat := x % 4294967296

/-- 32-bit right rotation. -/
def rotr32 (n x : Nat) : Nat := w32 ((x >>> n) ||| (x <<< (32 - n)))

/-- SHA-256 `Ch` function; `¬x` on 32 bits is `x ^^^ 0xffffffff`. -/
def ch32 (x y z : Nat) : Nat := (x &&& y) ^^^ ((x ^^^ 4294967295) &&& z)

/-- SHA-256 `Maj` function. -/
def maj32 (x y z : Nat) : Nat := (x &&& y) ^^^ (x &&& z) ^^^ (y &&& z)

/-- SHA-256 `Σ₀`. -/
def sigmaBig0 (x : Nat) : Nat := rotr32 2 x ^^^ rotr32 13 x ^^^ rotr32 22 x

/-- SHA-256 `Σ₁`. -/
def sigmaBig1 (x : Nat) : Nat := rotr32 6 x ^^^ rotr32 11 x ^^^ rotr32 25 x

/-- SHA-256 `σ₀`. -/
def sigmaSmall0 (x : Nat) : Nat := rotr32 7 x ^^^ rotr32 18 x ^^^ (x >>> 3)

/-- SHA-256 `σ₁`. -/
def sigmaSmall1 (x : Nat) : Nat := rotr32 17 x ^^^ rotr32 19 x ^^^ (x >>> 10)

/-- The 64 SHA-256 round constants (FIPS 180-4 §4.2.2, written in decimal). -/
def sha256K : Array Nat := #[
  1116352408, 1899447441, 3049323471, 3921009573, 961987163, 1508970993,
  2453635748, 2870763221, 3624381080, 310598401, 607225278, 1426881987,
  1925078388, 2162078206, 2614888103, 3248222580, 3835390401, 4022224774,
  264347078, 604807628, 770255983, 1249150122, 1555081692, 1996064986,
  2554220882, 2821834349, 2952996808, 3210313671, 3336571891, 3584528711,
  113926993, 338241895, 666307205, 773529912, 1294757372, 1396182291,
  1695183700, 1986661051, 2177026350, 2456956037, 2730485921, 2820302411,
  3259730800, 3345764771, 3516065817, 3600352804, 4094571909, 275423344,
  430227734, 506948616, 659060556, 883997877, 958139571, 1322822218,
  1537002063, 1747873779, 1955562222, 2024104815, 2227730452, 2361852424,
  2428436474, 2756734187, 3204031479, 3329325298]

/-- The SHA-256 initial hash value (FIPS 180-4 §5.3.3, written in decimal). -/
def sha256H0 : List Nat :=
  [1779033703, 3144134277, 1013904242, 2773480762,
   1359893119, 2600822924, 528734635, 1541459225]

/-- `n`-byte big-endian encoding of `v`. -/
def beBytes (n v : Nat) : List Nat :=
  (List.range n).map (fun i => (v >>> (8 * (n - 1 - i))) % 256)

/-- SHA-256 padding: append `0x80`, zero bytes to 56 mod 64, then the
64-bit big-endian bit length. -/
def sha256Pad (msg : List Nat) : List Nat :=
  let len := msg.length
  let zeros := (119 - len % 64) % 64
  msg ++ [128] ++ List.replicate zeros 0 ++ beBytes 8 (8 * len)

/-- Group bytes into big-endian 32-bit words. -/
def bytesToWords : List Nat → List Nat
  | a :: b :: c :: d :: rest => (((a * 256 + b) * 256 + c) * 256 + d) :: bytesToWords rest
  | _ => []

/-- Split a byte list into 64-byte blocks. -/
def toBlocks : List Nat → List (List Nat)
  | [] => []
  | x :: rest => (x :: rest).take 64 :: toBlocks ((x :: rest).drop 64)
termination_by l => l.length
decreasing_by simp [List.length_drop]; omega

/-- Message schedule: extend 16 words to 64. -/
def sha256Schedule (ws : Array Nat) : Array Nat :=
  (List.range 48).foldl
    (fun a t =>
      a.push (w32 (sigmaSmall1 (a.getD (t + 14) 0) + a.getD (t + 9) 0 +
        sigmaSmall0 (a.getD (t + 1) 0) + a.getD t 0)))
    ws

/-- One SHA-256 round. -/
def sha256Round (ws : Array Nat)
    (st : Nat × Nat × Nat × Nat × Nat × Nat × Nat × Nat) (t : Nat) :
    Nat × Nat × Nat × Nat × Nat × Nat × Nat × Nat :=
  let (a, b, c, d, e, f, g, h) := st
  let t1 := w32 (h + sigmaBig1 e + ch32 e f g + sha256K.getD t 0 + ws.getD t 0)
  let t2 := w32 (sigmaBig0 a + maj32 a b c)
  (w32 (t1 + t2), a, b, c, w32 (d + t1), e, f, g)

/-- Compress one 64-byte block into the running hash (8 words). -/
def sha256Compress (hs : List Nat) (block : List Nat) : List Nat :=
  let ws := sha256Schedule (bytesToWords block).toArray
  let h0 := hs.getD 0 0
  let h1 := hs.getD 1 0
  let h2 := hs.getD 2 0
  let h3 := hs.getD 3 0
  let h4 := hs.getD 4 0
  let h5 := hs.getD 5 0
  let h6 := hs.getD 6 0
  let h7 := hs.getD 7 0
  let (a, b, c, d, e, f, g, h) :=
    (List.range 64).foldl (sha256Round ws) (h0, h1, h2, h3, h4, h5, h6, h7)
  [w32 (h0 + a), w32 (h1 + b), w32 (h2 + c), w32 (h3 + d),
   w32 (h4 + e), w32 (h5 + f), w32 (h6 + g), w32 (h7 + h)]

/-- SHA-256 digest of a byte list, as 32 bytes. -/
def sha256Bytes (msg : List Nat) : List Nat :=
  (((toBlocks (sha256Pad msg)).foldl sha256Compress sha256H0).map (beBytes 4)).flatten

/-- Lowercase hex digit. -/
def hexDigit (n : Nat) : Char :=
  if n < 10 then Char.ofNat (48 + n) else Char.ofNat (87 + n)

/-- Python `.hexdigest()`: lowercase hex string of the digest bytes. -/
def hexdigest (bytes : List Nat) : String :=
  ⟨(bytes.map (fun b => [hexDigit (b / 16), hexDigit (b % 16)])).flatten⟩

/-- `sha256(text.encode("utf-8")).hexdigest()` — the storage-ID derivation of
`ChromaDBStore._store`. -/
def sha256HexOfText (text : String) : String :=
  hexdigest (sha256Bytes (utf8Encode text))

/-! ## The store object and its operations -/

/-- The `embedding_function` constructor argument:
`Union[Embeddings, chromadb.EmbeddingFunction]`.  `internal` is the
repository's own `Embeddings` provider (its `embed_text` capability, one
vector per input text); `native` is an opaque backend-native
`chromadb.EmbeddingFunction` handle, identified by a token.  The
`isinstance(self.embedding_function, Embeddings)` checks in the code become
matches on this variant. -/
inductive EmbeddingFunction where
  | internal (embed_text : List String → List (List ℚ))
  | native (handle : Nat)

/-- Whether the `isinstance(…, Embeddings)` check fails. -/
def EmbeddingFunction.isNative : EmbeddingFunction → Bool
  | .internal _ => false
  | .native _ => true

/-- The fields that `ChromaDBStore.__init__` assigns on `self`.  The Chroma
client object is modelled as an opaque reference token.  Note the constructor
stores `{"hnsw:space": distance_method}` as `_metadata`; the dict has this
single key, so it is modelled by its `DistanceMethod` value. -/
structure ChromaDBStore where
  index_name : String
  chroma_client : Nat
  embedding_function : EmbeddingFunction
  max_distance : Option ℚ
  hnswSpace : DistanceMethod

/-- One call the store issues to an external collaborator, in order:
the backend (`get_or_create_collection`, `collection.add`,
`collection.query`) or the internal embedding provider (`embed_text`). -/
inductive ExternalCall (α : Type) where
  | getOrCreate (name : String) (space : DistanceMethod) (withNativeEmbeddingFn : Bool)
  | embedText (texts : List String)
  | addWithEmbeddings (ids : List String) (embeddings : List (List ℚ))
      (documents : List String) (metadatas : List (RowMeta α))
  | addWithoutEmbeddings (ids : List String) (documents : List String)
      (metadatas : List (RowMeta α))
  | queryByEmbeddings (embeddings : List (List ℚ)) (nResults : Nat)
  | queryByTexts (texts : List String) (nResults : Nat)

/-- Embedding of `ChromaDBStore.__init__`.  Python's module-level
`try: import chromadb` sets `HAS_CHROMADB`; the constructor raises
`ImportError` when it is false, before touching any field or making any
backend call, and otherwise only assigns the configuration fields. -/
def initChromaDBStore (hasChromadb : Bool) (index_name : String) (chroma_client : Nat)
    (embedding_function : EmbeddingFunction) (max_distance : Option ℚ)
    (distance_method : DistanceMethod) : Except PyErr ChromaDBStore :=
  if hasChromadb then
    .ok { index_name := index_name, chroma_client := chroma_client,
          embedding_function := embedding_function, max_distance := max_distance,
          hnswSpace := distance_method }
  else
    .error .importError

/-- Embedding of `ChromaDBStore._get_chroma_collection` as the
`get_or_create_collection` call it issues: both branches pass
`name=self.index_name` and `metadata=self._metadata`; the non-`Embeddings`
branch additionally passes the native embedding function. -/
def getChromaCollectionCall {α : Type} (s : ChromaDBStore) : ExternalCall α :=
  .getOrCreate s.index_name s.hnswSpace s.embedding_function.isNative

/-- The dict built by `ChromaDBStore.store` for one entry:
`{"text": entry.vector, "metadata": {"key": entry.key, "metadata": entry.metadata}}`. -/
structure StoreItem (α : Type) where
  text : String
  metadata : RowMeta α
deriving DecidableEq, Repr

/-- The list comprehension of `ChromaDBStore.store` building `formatted_data`. -/
def formatEntry {α : Type} (entry : VectorDBEntry α) : StoreItem α :=
  { text := entry.vector, metadata := { key := entry.key, metadata := entry.metadata } }

/-- Embedding of `ChromaDBStore._store`, returning the post-state of `self`
and the ordered trace of external calls it makes.  The ids are
`sha256(item["text"].encode("utf-8")).hexdigest()`; then the collection is
fetched, and in the `Embeddings` branch the texts are embedded in one call
and passed to a single `add`, otherwise `add` is called without
embeddings. -/
def storeUnderscore {α : Type} (s : ChromaDBStore) (data : List (StoreItem α)) :
    ChromaDBStore × List (ExternalCall α) :=
  let ids := data.map (fun item => sha256HexOfText item.text)
  let texts := data.map (fun item => item.text)
  let metadata := data.map (fun item => item.metadata)
  match s.embedding_function with
  | .internal embed_text =>
      let embeddings := embed_text texts
      (s, [getChromaCollectionCall s, .embedText texts,
           .addWithEmbeddings ids embeddings texts metadata])
  | .native _ =>
      (s, [getChromaCollectionCall s, .addWithoutEmbeddings ids texts metadata])

/-- Embedding of `ChromaDBStore.store`: format the entries and delegate to
`_store`. -/
def storeRun {α : Type} (s : ChromaDBStore) (entries : List (VectorDBEntry α)) :
    ChromaDBStore × List (ExternalCall α) :=
  storeUnderscore s (entries.map formatEntry)

/-- Embedding of `ChromaDBStore.retrieve`: fetch the collection, issue a
k-NN query with the supplied vector, and build the entries from the result.
The backend's response to the query call is an input (`queryResult`). -/
def retrieveRun {α : Type} (s : ChromaDBStore) (vector : List ℚ) (k : Nat)
    (queryResult : QueryResult α) :
    ChromaDBStore × List (ExternalCall α) × Except PyErr (List (VectorDBEntry α)) :=
  (s, [getChromaCollectionCall s, .queryByEmbeddings [vector] k],
   retrieveEntries queryResult)

/-- Embedding of `ChromaDBStore.find_similar`: fetch the collection, issue a
1-NN query (by embedding in the `Embeddings` branch, by raw text otherwise)
and run `_return_best_match` on the backend's response. -/
def findSimilarRun {α : Type} (s : ChromaDBStore) (text : String)
    (queryResult : QueryResult α) :
    ChromaDBStore × List (ExternalCall α) × Except PyErr (Option String) :=
  match s.embedding_function with
  | .internal embed_text =>
      (s, [getChromaCollectionCall s, .embedText [text],
           .queryByEmbeddings (embed_text [text]) 1],
       returnBestMatch s.max_distance queryResult)
  | .native _ =>
      (s, [getChromaCollectionCall s, .queryByTexts [text] 1],
       returnBestMatch s.max_distance queryResult)

/-! ## Backend collection state

For the idempotency claims a minimal model of the backend collection's `add`
is needed; `add` is chromadb code, not part of this repository. -/

/-- A row persisted in the backend collection: the storage ID with the
document text and row metadata written for it. -/
structure StoredRow (α : Type) where
  id : String
  document : String
  metadata : RowMeta α
deriving DecidableEq, Repr

/-- Whether the collection already holds a row with storage ID `i`. -/
def hasId {α : Type} (rows : List (StoredRow α)) (i : String) : Bool :=
  rows.any (fun r0 => r0.id = i)

/-- Modelled from the spec: the backend collection's `add` for one row
(chromadb, an external collaborator, not under `src/`).  Per the spec's
invariant, re-storing an existing content-derived ID is "idempotent
(overwrite/no-op, not duplication)": an `add` whose ID is already present
leaves the collection unchanged instead of appending a duplicate. -/
def collectionAddOne {α : Type} (rows : List (StoredRow α)) (r : StoredRow α) :
    List (StoredRow α) :=
  if hasId rows r.id then rows else rows ++ [r]

/-- Modelled from the spec: the backend collection's batched
`add(ids=…, documents=…, metadatas=…)`, row by row. -/
def collectionAdd {α : Type} (rows : List (StoredRow α)) (batch : List (StoredRow α)) :
    List (StoredRow α) :=
  batch.foldl collectionAddOne rows

/-- The rows that one `store` call writes: ids from the content hash, paired
with the formatted documents and metadata. -/
def storedRows {α : Type} (entries : List (VectorDBEntry α)) : List (StoredRow α) :=
  entries.map (fun e =>
    { id := sha256HexOfText (formatEntry e).text,
      document := (formatEntry e).text,
      metadata := (formatEntry e).metadata })

/-- The ids passed to the first `collection.add` call of a trace. -/
def addedIds {α : Type} : List (ExternalCall α) → List String
  | [] => []
  | .addWithEmbeddings ids _ _ _ :: _ => ids
  | .addWithoutEmbeddings ids _ _ :: _ => ids
  | _ :: rest => addedIds rest

/-- The documents passed to the first `collection.add` call of a trace. -/
def addedDocuments {α : Type} : List (ExternalCall α) → List String
  | [] => []
  | .addWithEmbeddings _ _ docs _ :: _ => docs
  | .addWithoutEmbeddings _ docs _ :: _ => docs
  | _ :: rest => addedDocuments rest

/-- The metadatas passed to the first `collection.add` call of a trace. -/
def addedMetadatas {α : Type} : List (ExternalCall α) → List (RowMeta α)
  | [] => []
  | .addWithEmbeddings _ _ _ metas :: _ => metas
  | .addWithoutEmbeddings _ _ metas :: _ => metas
  | _ :: rest => addedMetadatas rest

/-! ## Concrete instances used in closed statements -/

/-- The column-first response of the backend to a single query that matched
nothing (empty collection): one empty row list per column. -/
def emptyResult1 (α : Type) : QueryResult α := ⟨[[]], [[]], [[]]⟩

/-- A backend response to a single query that returned two rows. -/
def twoRowResult : QueryResult Nat :=
  ⟨[["docA", "docB"]], [[⟨"keyA", 1⟩, ⟨"keyB", 2⟩]], [[0, 1]]⟩

/-- A fixed internal embedding provider for concrete instances. -/
def embedConst : List String → List (List ℚ) := fun ts => ts.map (fun _ => [0])

/-- A store in backend-native embedding mode, no threshold. -/
def storeNative : ChromaDBStore := ⟨"index", 0, .native 0, none, .l2⟩

/-- A store in internal embedding mode, no threshold. -/
def storeInternal : ChromaDBStore := ⟨"index", 0, .internal embedConst, none, .l2⟩

/-- A store in backend-native embedding mode with `max_distance = 2`. -/
def storeNativeThresh : ChromaDBStore := ⟨"index", 0, .native 0, some 2, .l2⟩

/-- A concrete entry. -/
def entryA : VectorDBEntry Nat := ⟨"k1", "payload", 0⟩

/-- A concrete entry with the same payload as `entryA` but different key and
metadata. -/
def entryB : VectorDBEntry Nat := ⟨"k2", "payload", 1⟩

/-- The backend response ranking `entryA`'s stored row first. -/
def resultEntryA : QueryResult Nat := ⟨[["payload"]], [[⟨"k1", 0⟩]], [[0]]⟩

/-! ## Helper lemmas -/

theorem hasId_collectionAddOne {α : Type} (rows : List (StoredRow α)) (r : StoredRow α)
    (i : String) (h : hasId rows i = true) : hasId (collectionAddOne rows r) i = true := by
  unfold collectionAddOne
  split
  · exact h
  · simp only [hasId, List.any_append] at h ⊢
    simp [h]

theorem hasId_self_collectionAddOne {α : Type} (rows : List (StoredRow α)) (r : StoredRow α) :
    hasId (collectionAddOne rows r) r.id = true := by
  unfold collectionAddOne
  split
  · assumption
  · simp [hasId, List.any_append]

theorem hasId_collectionAdd {α : Type} (batch rows : List (StoredRow α)) (i : String)
    (h : hasId rows i = true) : hasId (collectionAdd rows batch) i = true := by
  induction batch generalizing rows with
  | nil => exact h
  | cons b bs ih => exact ih _ (hasId_collectionAddOne _ _ _ h)

theorem hasId_mem_collectionAdd {α : Type} (batch rows : List (StoredRow α))
    (r : StoredRow α) (hr : r ∈ batch) : hasId (collectionAdd rows batch) r.id = true := by
  induction batch generalizing rows with
  | nil => cases hr
  | cons b bs ih =>
    rcases List.mem_cons.mp hr with h | h
    · subst h
      exact hasId_collectionAdd bs _ r.id (hasId_self_collectionAddOne rows r)
    · exact ih _ h

theorem collectionAdd_of_all_present {α : Type} (batch rows : List (StoredRow α))
    (h : ∀ r ∈ batch, hasId rows r.id = true) : collectionAdd rows batch = rows := by
  induction batch with
  | nil => rfl
  | cons b bs ih =>
    have hb : collectionAddOne rows b = rows := by
      simp [collectionAddOne, h b (List.mem_cons_self b bs)]
    show collectionAdd (collectionAddOne rows b) bs = rows
    rw [hb]
    exact ih (fun r hr => h r (List.mem_cons_of_mem b hr))

theorem collectionAdd_idem {α : Type} (rows batch : List (StoredRow α)) :
    collectionAdd (collectionAdd rows batch) batch = collectionAdd rows batch :=
  collectionAdd_of_all_present batch _ (fun r hr => hasId_mem_collectionAdd batch rows r hr)

/-- The result component of `find_similar` is `_return_best_match` of the
backend's response, in both embedding modes. -/
theorem findSimilarRun_result {α : Type} (s : ChromaDBStore) (text : String)
    (r : QueryResult α) :
    (findSimilarRun s text r).2.2 = returnBestMatch s.max_distance r := by
  unfold findSimilarRun
  rcases s.embedding_function with _ | _ <;> rfl

/-! ## Claim theorems -/

/-- Claim C1, evaluated at the failing input.  The claim says `find_similar`
returns `None` and never raises when the backend's 1-NN result is empty; the
code instead raises `IndexError` from the `[0][0]` indexing in
`_return_best_match`, for every query text, with `max_distance` unset and
set, in both embedding modes. -/
theorem C1_find_similar_empty_result_raises :
    ∀ (text : String) (md : ℚ),
      (findSimilarRun storeNative text (emptyResult1 Nat)).2.2 = .error .indexError ∧
      (findSimilarRun (⟨"index", 0, .native 0, some md, .l2⟩ : ChromaDBStore) text
          (emptyResult1 Nat)).2.2 = .error .indexError ∧
      (findSimilarRun storeInternal text (emptyResult1 Nat)).2.2 = .error .indexError ∧
      (findSimilarRun (⟨"index", 0, .internal embedConst, some md, .l2⟩ : ChromaDBStore) text
          (emptyResult1 Nat)).2.2 = .error .indexError :=
  fun _ _ => ⟨rfl, rfl, rfl, rfl⟩

/-- Claim C2, evaluated at the failing input.  The claim says `retrieve`
returns one entry per backend row (`m` entries when the backend returns
`m < k` rows, without error); on a two-row backend response the code returns
a single entry (it iterates the per-query axis of the column-first result and
reads only row `[0]`), and on an empty response it raises `IndexError`. -/
theorem C2_retrieve_collapses_rows :
    (retrieveRun storeNative [0] 5 twoRowResult).2.2 = .ok [⟨"keyA", "docA", 1⟩] ∧
    (retrieveRun storeNative [0] 5 (emptyResult1 Nat)).2.2 = .error .indexError :=
  ⟨rfl, rfl⟩

/-- Claim C7: construction raises a configuration error (`ImportError`)
exactly when the chromadb dependency is unavailable, before any backend
call (the embedded constructor issues none), and otherwise succeeds,
assigning exactly the configuration fields. -/
theorem C7_init_fail_fast (index_name : String) (chroma_client : Nat)
    (ef : EmbeddingFunction) (md : Option ℚ) (dm : DistanceMethod) :
    initChromaDBStore false index_name chroma_client ef md dm = .error .importError ∧
    initChromaDBStore true index_name chroma_client ef md dm =
      .ok ⟨index_name, chroma_client, ef, md, dm⟩ :=
  ⟨rfl, rfl⟩

/-- Claim C9: no operation mutates the store's own state — the post-state of
`self` after `store`, `retrieve` and `find_similar` equals the pre-state, so
all configuration fields (index name, distance-metric metadata, threshold,
embedding function reference, client reference) are unchanged. -/
theorem C9_no_self_mutation {α : Type} (s : ChromaDBStore)
    (entries : List (VectorDBEntry α)) (vector : List ℚ) (k : Nat)
    (r rq : QueryResult α) (text : String) :
    (storeRun s entries).1 = s ∧
    (retrieveRun s vector k r).1 = s ∧
    (findSimilarRun s text rq).1 = s := by
  refine ⟨?_, rfl, ?_⟩ <;>
    rcases hef : s.embedding_function with f | n <;>
      simp [storeRun, storeUnderscore, findSimilarRun, hef]

/-- Claim C3: the storage IDs that `store` passes to the backend `add` are
the SHA-256 hex digests of the UTF-8 encoded vector payloads; two entries
with identical payload content receive the identical ID; and re-storing a
batch into the (spec-modelled) backend collection is idempotent. -/
theorem C3_content_hash_determinism {α : Type} (s : ChromaDBStore)
    (entries : List (VectorDBEntry α)) (rows : List (StoredRow α))
    (e1 e2 : VectorDBEntry α) (h : e1.vector = e2.vector) :
    addedIds (storeRun s entries).2 =
      entries.map (fun e => sha256HexOfText e.vector) ∧
    sha256HexOfText e1.vector = sha256HexOfText e2.vector ∧
    collectionAdd (collectionAdd rows (storedRows entries)) (storedRows entries) =
      collectionAdd rows (storedRows entries) := by
  refine ⟨?_, by rw [h], collectionAdd_idem _ _⟩
  rcases hef : s.embedding_function with f | n <;>
    simp [storeRun, storeUnderscore, hef, addedIds, formatEntry]

/-- Witness for C3 at concrete entries with identical payloads. -/
theorem C3_content_hash_determinism_witness :
    addedIds (storeRun storeNative [entryA]).2 =
      [entryA].map (fun e => sha256HexOfText e.vector) ∧
    sha256HexOfText entryA.vector = sha256HexOfText entryB.vector ∧
    collectionAdd (collectionAdd [] (storedRows [entryA])) (storedRows [entryA]) =
      collectionAdd [] (storedRows [entryA]) :=
  C3_content_hash_determinism storeNative [entryA] [] entryA entryB rfl

/-- Claim C4: with a non-empty 1-NN backend result whose best document is
`doc` at distance `d`, `find_similar` returns the document when
`max_distance` is unset, returns it when `d ≤ max_distance`, and returns
`None` when the distance exceeds the threshold. -/
theorem C4_threshold_policy {α : Type} (s : ChromaDBStore) (text : String)
    (r : QueryResult α) (doc : String) (d : ℚ)
    (hdoc : idx00 r.documents = some doc) (hdist : idx00 r.distances = some d) :
    (s.max_distance = none → (findSimilarRun s text r).2.2 = .ok (some doc)) ∧
    (∀ md : ℚ, s.max_distance = some md → d ≤ md →
      (findSimilarRun s text r).2.2 = .ok (some doc)) ∧
    (∀ md : ℚ, s.max_distance = some md → md < d →
      (findSimilarRun s text r).2.2 = .ok none) := by
  refine ⟨fun hmd => ?_, fun md hmd hle => ?_, fun md hmd hlt => ?_⟩ <;>
    rw [findSimilarRun_result, hmd]
  · simp [returnBestMatch, hdoc]
  · simp [returnBestMatch, hdist, hdoc, hle]
  · simp [returnBestMatch, hdist, not_le.mpr hlt]

/-- Witness for C4: with threshold `2` and best distance `0`, the best
document is returned. -/
theorem C4_threshold_policy_witness :
    (findSimilarRun storeNativeThresh "query" twoRowResult).2.2 = .ok (some "docA") :=
  (C4_threshold_policy storeNativeThresh "query" twoRowResult "docA" 0 rfl rfl).2.1
    2 rfl (by norm_num)

/-- Claim C5: `store` writes each entry's payload text as the backend
document and the dict of its key and metadata as the backend row metadata;
when a later `retrieve` with the entry's own vector gets that row back as
the nearest row, the result list contains an entry whose key, vector and
metadata round-trip exactly. -/
theorem C5_store_retrieve_roundtrip {α : Type} (s : ChromaDBStore)
    (entries : List (VectorDBEntry α)) (e : VectorDBEntry α) (he : e ∈ entries)
    (vector : List ℚ) (k : Nat) (r : QueryResult α)
    (restDocs : List String) (restMetas : List (RowMeta α))
    (hdocs : r.documents = [e.vector :: restDocs])
    (hmetas : r.metadatas = [(⟨e.key, e.metadata⟩ : RowMeta α) :: restMetas]) :
    e.vector ∈ addedDocuments (storeRun s entries).2 ∧
    (⟨e.key, e.metadata⟩ : RowMeta α) ∈ addedMetadatas (storeRun s entries).2 ∧
    (retrieveRun s vector k r).2.2 = .ok [⟨e.key, e.vector, e.metadata⟩] := by
  refine ⟨?_, ?_, ?_⟩
  · rcases hef : s.embedding_function with f | n <;>
      simp [storeRun, storeUnderscore, hef, addedDocuments, formatEntry] <;>
      exact ⟨e, he, rfl⟩
  · rcases hef : s.embedding_function with f | n <;>
      simp [storeRun, storeUnderscore, hef, addedMetadatas, formatEntry] <;>
      exact ⟨e, he, rfl, rfl⟩
  · simp [retrieveRun, retrieveEntries, hdocs, hmetas, buildEntries, rowToEntry]

/-- Witness for C5: one stored entry, returned by the backend as the nearest
row to its own vector. -/
theorem C5_store_retrieve_roundtrip_witness :
    (retrieveRun storeNative [0] 5 resultEntryA).2.2 =
      .ok [⟨entryA.key, entryA.vector, entryA.metadata⟩] :=
  (C5_store_retrieve_roundtrip storeNative [entryA] entryA
    (List.mem_cons_self entryA []) [0] 5 resultEntryA [] [] rfl rfl).2.2

/-- Claim C6: in internal embedding mode, `store` makes exactly one batched
`embed_text` call holding all payload texts and one `add` call that includes
the resulting embeddings; in backend-native mode it makes no embedding call
and the single `add` call omits embeddings. -/
theorem C6_embedding_dispatch {α : Type} (s : ChromaDBStore)
    (entries : List (VectorDBEntry α)) :
    (∀ f, s.embedding_function = .internal f →
      (storeRun s entries).2 =
        [getChromaCollectionCall s,
         .embedText (entries.map (fun e => e.vector)),
         .addWithEmbeddings (entries.map (fun e => sha256HexOfText e.vector))
           (f (entries.map (fun e => e.vector)))
           (entries.map (fun e => e.vector))
           (entries.map (fun e => ⟨e.key, e.metadata⟩))]) ∧
    (∀ h0, s.embedding_function = .native h0 →
      (storeRun s entries).2 =
        [getChromaCollectionCall s,
         .addWithoutEmbeddings (entries.map (fun e => sha256HexOfText e.vector))
           (entries.map (fun e => e.vector))
           (entries.map (fun e => ⟨e.key, e.metadata⟩))]) := by
  constructor
  · intro f hf
    simp [storeRun, storeUnderscore, hf, formatEntry]
    rfl
  · intro h0 hf
    simp [storeRun, storeUnderscore, hf, formatEntry]

/-- Witness for C6 in internal embedding mode at one concrete entry. -/
theorem C6_embedding_dispatch_witness :
    (storeRun storeInternal [entryA]).2 =
      [getChromaCollectionCall storeInternal,
       .embedText ([entryA].map (fun e => e.vector)),
       .addWithEmbeddings ([entryA].map (fun e => sha256HexOfText e.vector))
         (embedConst ([entryA].map (fun e => e.vector)))
         ([entryA].map (fun e => e.vector))
         ([entryA].map (fun e => ⟨e.key, e.metadata⟩))] :=
  (C6_embedding_dispatch storeInternal [entryA]).1 embedConst rfl

/-- Claim C8: every entry-point operation first issues an idempotent
`get_or_create_collection` call for `index_name`, tagged with the configured
distance metric, before any other backend call. -/
theorem C8_collection_ensured {α : Type} (idx : String) (client : Nat)
    (ef : EmbeddingFunction) (md : Option ℚ) (dm : DistanceMethod) (s : ChromaDBStore)
    (hs : initChromaDBStore true idx client ef md dm = .ok s)
    (entries : List (VectorDBEntry α)) (vector : List ℚ) (k : Nat)
    (r rq : QueryResult α) (text : String) :
    (storeRun s entries).2.head? = some (.getOrCreate idx dm ef.isNative) ∧
    (retrieveRun s vector k r).2.1.head? = some (.getOrCreate idx dm ef.isNative) ∧
    (findSimilarRun s text rq).2.1.head? = some (.getOrCreate idx dm ef.isNative) := by
  have hs' : (⟨idx, client, ef, md, dm⟩ : ChromaDBStore) = s := by
    simpa [initChromaDBStore] using hs
  subst hs'
  refine ⟨?_, rfl, ?_⟩ <;>
    rcases ef with f | n <;> rfl

/-- Witness for C8 at a concrete configuration. -/
theorem C8_collection_ensured_witness :
    (retrieveRun (⟨"idx", 3, .native 0, none, .cosine⟩ : ChromaDBStore) [0] 5
        (emptyResult1 Nat)).2.1.head? =
      some (.getOrCreate "idx" .cosine (EmbeddingFunction.native 0).isNative) :=
  (C8_collection_ensured "idx" 3 (.native 0) none .cosine _ rfl
    ([] : List (VectorDBEntry Nat)) [0] 5 (emptyResult1 Nat) (emptyResult1 Nat) "q").2.1

/-- Claim C10: the derived storage ID depends only on the payload text — two
entries with identical payloads but different key or metadata get the same
ID in the `add` call, and in the (spec-modelled) backend collection the
second write collides with the first instead of creating a distinct
record. -/
theorem C10_id_independent_of_key_metadata {α : Type} (s : ChromaDBStore)
    (e1 e2 : VectorDBEntry α) (hv : e1.vector = e2.vector)
    (_hne : e1.key ≠ e2.key ∨ e1.metadata ≠ e2.metadata) :
    addedIds (storeRun s [e1, e2]).2 =
      [sha256HexOfText e1.vector, sha256HexOfText e1.vector] ∧
    (collectionAdd [] (storedRows [e1, e2])).length = 1 := by
  constructor
  · rcases hef : s.embedding_function with f | n <;>
      simp [storeRun, storeUnderscore, hef, addedIds, formatEntry, hv]
  · simp [storedRows, collectionAdd, collectionAddOne, hasId, formatEntry, hv]

/-- Witness for C10: same payload, different key and metadata. -/
theorem C10_id_independent_of_key_metadata_witness :
    addedIds (storeRun storeNative [entryA, entryB]).2 =
      [sha256HexOfText entryA.vector, sha256HexOfText entryA.vector] ∧
    (collectionAdd [] (storedRows [entryA, entryB])).length = 1 :=
  C10_id_independent_of_key_metadata storeNative entryA entryB rfl
    (Or.inl (by decide))

end ChromaSpec

